import Mathlib

/-!
Shallow embedding of the service supervisor and health-monitoring engine of
`launcher.py` (gary-localhost-installer).

The configured services are the fixed three-element set declared in
`Gary4JUCEControlCenter.__init__` (`gary`, `melodyflow`, `stable-audio`), plus
the Redis dependency tracked under the separate `"redis"` key of the process
registry.  Network and OS effects (probe calls, `subprocess.Popen`, timers) are
modelled as oracles supplied in environment records; each Python function that
the claims mention is translated into a pure Lean function over those records.
-/

/-- The closed set of configured service identifiers, from the `self.services`
dict of `Gary4JUCEControlCenter.__init__` (keys `gary`, `melodyflow`,
`stable-audio`). -/
inductive SName
  | gary
  | melodyflow
  | stableAudio
  deriving DecidableEq, Repr, Fintype

/-- Declaration (= Python dict insertion) order of the configured services. -/
def allServices : List SName := [SName.gary, SName.melodyflow, SName.stableAudio]

/-- Observable state of a launched OS process handle: `poll() is None` means
alive, otherwise the process has exited with a code. -/
inductive ProcState
  | alive
  | exited (code : Int)
  deriving DecidableEq, Repr

/-- Key into the `self.processes` registry: the dependency entry `"redis"` or a
configured service name. -/
inductive ProcId
  | redis
  | svc (s : SName)
  deriving DecidableEq, Repr

/-- Mutable state of `Gary4JUCEControlCenter` that the supervisor worker, the
health checker and the status aggregator read and write: the aggregate
`services_running` flag, whether the `ServiceWorker` thread `isRunning()`, the
`start_time` field, and the `self.processes` registry split into its `"redis"`
entry and its per-service entries. -/
structure CCState where
  servicesRunning : Bool
  workerRunning : Bool
  startTime : Option Nat
  redisProc : Option ProcState
  svcProc : SName → Option ProcState

/-- Results of the network probes during one health-check cycle:
`check_redis_health()`, `check_port_listening(port)` per service port,
`check_service_health(port, timeout)` and the `healthy` field of
`check_service_health_detailed(port, timeout)` per service. -/
structure Probes where
  redisHealth : Bool
  portListening : SName → Bool
  serviceHealth : SName → Bool
  detailedHealthy : SName → Bool

/-- Point-in-time health snapshot published by `health_status.emit(status)`:
the `status` dict keyed by `redis` plus the three service names. -/
structure Snapshot where
  redis : Bool
  svc : SName → Bool

/-- Private state of the `HealthChecker` thread: the
`detailed_check_counter` and the `services_confirmed_healthy` map from
service name to the timestamp it was last confirmed healthy. -/
structure HCState where
  detailedCounter : Nat
  confirmed : SName → Option Nat

/-- One service's branch of the `for name, config in self.parent.services.items()`
loop inside `HealthChecker.run`: returns the `status[name]` boolean published
for this cycle and the service's entry in `services_confirmed_healthy` after
this cycle. -/
def checkOneService (p : CCState) (pr : Probes) (st : HCState) (now : Nat)
    (name : SName) : Bool × Option Nat :=
  if p.servicesRunning then
    match p.svcProc name with
    | some ProcState.alive =>
      let healthOk := if st.detailedCounter % 20 = 0 then pr.detailedHealthy name
        else pr.serviceHealth name
      match st.confirmed name with
      | some t0 =>
        if now - t0 < 300 then
          -- confirmed recently: just check whether the port is still listening
          (pr.portListening name, some t0)
        else if healthOk then
          -- full HTTP health check succeeded: mark as confirmed healthy now
          (true, some now)
        else
          -- failed: drop the stale confirmation, fall back to the port check
          (pr.portListening name, none)
      | none =>
        -- full HTTP health check for a new/unconfirmed service
        if healthOk then (true, some now) else (pr.portListening name, none)
    | some (ProcState.exited _) =>
      -- process died: force-unhealthy and drop any confirmed-healthy entry
      (false, none)
    | none =>
      -- no handle registered for this name
      (false, none)
  else
    -- not supposed to be running: force-unhealthy and clear confirmation
    (false, none)

/-- One full cycle of the `while self.running` loop in `HealthChecker.run`
(probes, snapshot publication, confirmed-healthy bookkeeping, and the adaptive
sleep-interval computation): returns the published snapshot, the updated
checker state, and the chosen `sleep_time` in seconds. -/
def runCycle (p : CCState) (pr : Probes) (st : HCState) (now : Nat) :
    Snapshot × HCState × Nat :=
  let snap : Snapshot :=
    { redis := pr.redisHealth
      svc := fun n => (checkOneService p pr st now n).1 }
  let confirmedAfter : SName → Option Nat := fun n => (checkOneService p pr st now n).2
  let st' : HCState :=
    { detailedCounter := st.detailedCounter + 1
      confirmed := confirmedAfter }
  let allServicesHealthy := allServices.all snap.svc
  let confirmedCount := allServices.countP (fun n => (confirmedAfter n).isSome)
  let sleepTime :=
    if allServicesHealthy ∧ confirmedCount = allServices.length then 15
    else if allServices.any snap.svc then 8
    else 3
  (snap, st', sleepTime)

/-- Environment observed by one iteration of the `while self.running` loop of
`HealthChecker.run`: the value of the stop flag at the loop head, whether any
probe or logging call inside this cycle raises an exception, and the inputs the
cycle would otherwise read. -/
structure TickEnv where
  running : Bool
  raises : Bool
  parent : CCState
  probes : Probes
  now : Nat

/-- Outcome of one loop iteration of `HealthChecker.run`: either the snapshot
emitted by `health_status.emit`, or the `except Exception` handler firing
(which logs the health-check error). -/
inductive CycleResult
  | published (snap : Snapshot)
  | errorLogged

/-- The `while self.running` loop of `HealthChecker.run`, driven by a finite
schedule of tick environments: each iteration first reads the stop flag, then
either completes a cycle normally (`try` body: probe, publish, sleep) or hits
the `except Exception` handler, which logs the error and then executes
`break`, ending the loop. -/
def hcLoop (st : HCState) : List TickEnv → List CycleResult
  | [] => []
  | t :: rest =>
    if t.running = false then []
    else if t.raises then [CycleResult.errorLogged]
    else
      let r := runCycle t.parent t.probes st t.now
      CycleResult.published r.1 :: hcLoop r.2.1 rest

/-! ## Supervisor worker: `ServiceWorker._start_services` -/

/-- Discrete log events emitted on the `log_message` channel during
`ServiceWorker._start_services`, abstracting the message strings. -/
inductive LogEvent
  | startBanner
  | redisNotFound
  | redisStartingUp
  | redisLaunched
  | redisLaunchFailed
  | redisDiedImmediately
  | redisResponding
  | redisWaiting (attempt : Nat)
  | redisNotResponding
  | svcFilesMissing (s : SName)
  | svcStartingUp (s : SName)
  | svcLaunched (s : SName)
  | svcLaunchFailed (s : SName)
  | svcDiedImmediately (s : SName)
  | svcAccessViolation (s : SName)
  | svcRunningOk (s : SName)
  | allStarted
  deriving DecidableEq, Repr

/-- External outcomes consumed by one run of `ServiceWorker._start_services`:
whether `redis-server.exe` exists, whether its `Popen` call succeeds, whether
the Redis process has already exited after the settle delay (and with which
code), the result of `check_redis_health()` on each retry attempt, and per
service whether its interpreter/script files exist, whether its `Popen`
succeeds, and whether it has exited after its settle delay (and with which
code). -/
structure StartEnv where
  now : Nat
  redisExeExists : Bool
  redisLaunchOk : Bool
  redisDied : Bool
  redisExitCode : Int
  redisHealthTry : Nat → Bool
  filesExist : SName → Bool
  launchOk : SName → Bool
  svcDied : SName → Bool
  svcExitCode : SName → Int

/-- Log trace of the bounded Redis retry loop (`for attempt in range(max_retries)`
with `max_retries = 5`): first success logs that Redis responds and breaks;
a failure on a non-final attempt logs a waiting message; failure on the final
attempt logs that Redis is not responding.  In every case control falls
through to the service-launch loop. -/
def redisRetryLogs (h : Nat → Bool) : List Nat → List LogEvent
  | [] => []
  | a :: rest =>
    if h a then [LogEvent.redisResponding]
    else if rest.isEmpty then [LogEvent.redisNotResponding]
    else LogEvent.redisWaiting (a + 1) :: redisRetryLogs h rest

/-- One service's branch of the `for name, config in self.parent.services.items()`
launch loop of `ServiceWorker._start_services`: missing files skip the
service; a successful `Popen` registers the handle (which stays registered
even if the process dies within the settle delay, where the Windows
access-violation exit code 3221225477 gets a special diagnostic hint). -/
def startOneService (env : StartEnv) (acc : CCState × List LogEvent) (s : SName) :
    CCState × List LogEvent :=
  let p := acc.1
  let logs := acc.2
  if env.filesExist s = false then
    (p, logs ++ [LogEvent.svcFilesMissing s])
  else if env.launchOk s = false then
    (p, logs ++ [LogEvent.svcStartingUp s, LogEvent.svcLaunchFailed s])
  else
    let proc := if env.svcDied s then ProcState.exited (env.svcExitCode s)
      else ProcState.alive
    let p' := { p with svcProc := fun n => if n = s then some proc else p.svcProc n }
    let logs := logs ++ [LogEvent.svcStartingUp s, LogEvent.svcLaunched s]
    if env.svcDied s then
      let logs := logs ++ [LogEvent.svcDiedImmediately s]
      if env.svcExitCode s = 3221225477 then
        (p', logs ++ [LogEvent.svcAccessViolation s])
      else (p', logs)
    else (p', logs ++ [LogEvent.svcRunningOk s])

/-- The body of `ServiceWorker._start_services`: no-op if `services_running`
is already true; otherwise it sets `services_running = True` and records
`start_time` up front, then launches Redis (aborting the rest on a missing
executable, a failed launch, or an immediate death), runs the bounded
health-retry loop, and finally launches every configured service in
declaration order.  Returns the updated control-center state and the emitted
log events. -/
def startServicesRun (p : CCState) (env : StartEnv) : CCState × List LogEvent :=
  if p.servicesRunning then (p, [])
  else
    let p := { p with servicesRunning := true, startTime := some env.now }
    let logs := [LogEvent.startBanner]
    if env.redisExeExists = false then
      (p, logs ++ [LogEvent.redisNotFound])
    else if env.redisLaunchOk = false then
      (p, logs ++ [LogEvent.redisStartingUp, LogEvent.redisLaunchFailed])
    else
      let rproc := if env.redisDied then ProcState.exited env.redisExitCode
        else ProcState.alive
      let p := { p with redisProc := some rproc }
      let logs := logs ++ [LogEvent.redisStartingUp, LogEvent.redisLaunched]
      if env.redisDied then
        (p, logs ++ [LogEvent.redisDiedImmediately])
      else
        let logs := logs ++ redisRetryLogs env.redisHealthTry (List.range 5)
        let acc := allServices.foldl (startOneService env) (p, logs)
        (acc.1, acc.2 ++ [LogEvent.allStarted])

/-! ## Supervisor worker: `ServiceWorker._stop_services` -/

/-- Process-kill side effects issued while stopping: `process.terminate()`,
`process.kill()` (escalation after the graceful wait times out), and the
unconditional `taskkill /F /IM redis-server.exe` backstop. -/
inductive KillAction
  | term (pid : ProcId)
  | kill (pid : ProcId)
  | taskkillRedis
  deriving DecidableEq, Repr

/-- External outcomes consumed while stopping: whether `process.wait(timeout=5)`
returns before the timeout for each tracked process. -/
structure StopEnv where
  gracefulOk : ProcId → Bool

/-- One tracked registry entry's branch of the stop loop: a live process gets
`terminate()`, then `kill()` too if the graceful wait times out; an absent or
already-exited process is left alone. -/
def stopOne (env : StopEnv) (pid : ProcId) (proc : Option ProcState) :
    List KillAction :=
  match proc with
  | some ProcState.alive =>
    if env.gracefulOk pid then [KillAction.term pid]
    else [KillAction.term pid, KillAction.kill pid]
  | _ => []

/-- The body of `ServiceWorker._stop_services`: no-op if `services_running` is
false; otherwise terminate every tracked live process (registry iteration
order: the `"redis"` entry first, then services in declaration order), run the
`taskkill` backstop, then clear the registry, the running flag, and the start
timestamp. -/
def stopServicesRun (s : CCState) (env : StopEnv) : CCState × List KillAction :=
  if s.servicesRunning = false then (s, [])
  else
    let acts :=
      stopOne env ProcId.redis s.redisProc
        ++ allServices.foldl
            (fun acc n => acc ++ stopOne env (ProcId.svc n) (s.svcProc n)) []
        ++ [KillAction.taskkillRedis]
    ({ s with
        redisProc := none
        svcProc := fun _ => none
        servicesRunning := false
        startTime := none }, acts)

/-! ## Entry points `start_services` / `stop_services` on the control center -/

/-- The `Gary4JUCEControlCenter.start_services` entry point: rejected as a
no-op when `services_running` is already true or the worker thread
`isRunning()`; otherwise it dispatches the start operation to the worker.  The
boolean records whether the operation was dispatched. -/
def start_services (s : CCState) : CCState × Bool :=
  if s.servicesRunning || s.workerRunning then (s, false) else (s, true)

/-- The `Gary4JUCEControlCenter.stop_services` entry point: rejected as a
no-op when `services_running` is false or the worker thread `isRunning()`;
otherwise it dispatches the stop operation to the worker.  The boolean records
whether the operation was dispatched. -/
def stop_services (s : CCState) : CCState × Bool :=
  if !s.servicesRunning || s.workerRunning then (s, false) else (s, true)

/-! ## Status aggregation -/

/-- The four-valued status vocabulary shared by `get_system_status` and the
per-service indicator logic of `update_status_indicators`. -/
inductive StatusKind
  | stopped
  | starting
  | runningOk
  | error
  deriving DecidableEq, Repr

/-- Whether a configured service's registry entry counts as a dead
non-dependency process in `get_system_status` (`name != "redis" and process
and process.poll() is not None`). -/
def svcDead (p : CCState) (n : SName) : Bool :=
  match p.svcProc n with
  | some (ProcState.exited _) => true
  | _ => false

/-- One configured service's contribution to `healthy_count` in
`get_system_status`: a registered, still-alive process that is either marked
healthy in the last snapshot or whose port is listening. -/
def svcHealthyOrListening (p : CCState) (last : Snapshot) (portL : SName → Bool)
    (n : SName) : Bool :=
  match p.svcProc n with
  | some ProcState.alive => last.svc n || portL n
  | _ => false

/-- Translation of `Gary4JUCEControlCenter.get_system_status`: `stopped` when the running
flag is false; `error` when any tracked non-Redis process has exited;
`running` when `healthy_count == total_services and redis_healthy`; `starting`
when `healthy_count > 0 or redis_healthy`; otherwise `error`.  The `portL` and
`redisPortL` oracles stand for the `check_port_listening` fallback calls. -/
def get_system_status (p : CCState) (last : Snapshot) (portL : SName → Bool)
    (redisPortL : Bool) : StatusKind :=
  if p.servicesRunning = false then StatusKind.stopped
  else if 0 < allServices.countP (svcDead p) then StatusKind.error
  else
    let healthyCount := allServices.countP (svcHealthyOrListening p last portL)
    let redisHealthy := last.redis || redisPortL
    if healthyCount = allServices.length ∧ redisHealthy = true then
      StatusKind.runningOk
    else if 0 < healthyCount ∨ redisHealthy = true then StatusKind.starting
    else StatusKind.error

/-- The per-service display state assigned by
`Gary4JUCEControlCenter.update_status_indicators`: `stopped` when the running
flag is false; `error` when no handle is registered or the handle has exited;
for `gary` with an unhealthy snapshot entry, `starting` if its port is
listening and `error` otherwise; else `running` when healthy and `starting`
when not. -/
def serviceIndicatorStatus (p : CCState) (last : Snapshot)
    (portL : SName → Bool) (name : SName) : StatusKind :=
  if p.servicesRunning = false then StatusKind.stopped
  else
    match p.svcProc name with
    | none => StatusKind.error
    | some (ProcState.exited _) => StatusKind.error
    | some ProcState.alive =>
      if name = SName.gary ∧ last.svc name = false then
        if portL name then StatusKind.starting else StatusKind.error
      else if last.svc name then StatusKind.runningOk
      else StatusKind.starting

/-- Derivation of the overall system state exactly as the specification words
it (§4.7): per-service the predicate is plain healthy-or-port-listening with
no requirement that a live process handle is registered, and `starting`
requires the healthy-or-listening fraction strictly between 0 and 100% or a
healthy dependency.  Written to be compared with `get_system_status`. -/
def spec_system_status (p : CCState) (last : Snapshot) (portL : SName → Bool)
    (redisPortL : Bool) : StatusKind :=
  if p.servicesRunning = false then StatusKind.stopped
  else if ∃ n : SName, svcDead p n = true then StatusKind.error
  else
    let frac := allServices.countP (fun n => last.svc n || portL n)
    let depHealthy := last.redis || redisPortL
    if frac = allServices.length ∧ depHealthy = true then StatusKind.runningOk
    else if (0 < frac ∧ frac < allServices.length) ∨ depHealthy = true then
      StatusKind.starting
    else StatusKind.error

/-- The overall-state derivation amended to match `get_system_status`: the
per-service predicate additionally requires a registered, still-alive process
handle, and `starting` needs at least one such service healthy-or-listening
(even all of them, when the dependency is down) or a healthy dependency. -/
def spec_system_status_amended (p : CCState) (last : Snapshot)
    (portL : SName → Bool) (redisPortL : Bool) : StatusKind :=
  if p.servicesRunning = false then StatusKind.stopped
  else if ∃ n : SName, svcDead p n = true then StatusKind.error
  else if (∀ n : SName, svcHealthyOrListening p last portL n = true) ∧
      (last.redis || redisPortL) = true then StatusKind.runningOk
  else if (∃ n : SName, svcHealthyOrListening p last portL n = true) ∨
      (last.redis || redisPortL) = true then StatusKind.starting
  else StatusKind.error

/-! ## Concrete fixtures for witnesses and counterexamples -/

/-- Control-center state with the running flag set and every process handle
(dependency and services) registered and alive. -/
def ccAllAlive : CCState :=
  { servicesRunning := true
    workerRunning := false
    startTime := some 0
    redisProc := some ProcState.alive
    svcProc := fun _ => some ProcState.alive }

/-- Control-center state before anything has been started. -/
def ccIdle : CCState :=
  { servicesRunning := false
    workerRunning := false
    startTime := none
    redisProc := none
    svcProc := fun _ => none }

/-- Like `ccAllAlive` but the `gary` process has exited with code 1. -/
def ccGaryExited : CCState :=
  { ccAllAlive with
    svcProc := fun n =>
      if n = SName.gary then some (ProcState.exited 1) else some ProcState.alive }

/-- Running flag set but no service handle registered at all. -/
def ccNoHandles : CCState := { ccAllAlive with svcProc := fun _ => none }

/-- Control-center state while a start operation is in flight: the worker
thread reports `isRunning()` and the running flag is already set. -/
def ccStartInFlight : CCState := { ccAllAlive with workerRunning := true }

/-- Probe oracle where every HTTP health check fails but every port accepts
connections. -/
def probesPortOnly : Probes :=
  { redisHealth := true
    portListening := fun _ => true
    serviceHealth := fun _ => false
    detailedHealthy := fun _ => false }

/-- Probe oracle where every check succeeds. -/
def probesAllHealthy : Probes :=
  { redisHealth := true
    portListening := fun _ => true
    serviceHealth := fun _ => true
    detailedHealthy := fun _ => true }

/-- Probe oracle where every check fails. -/
def probesNone : Probes :=
  { redisHealth := false
    portListening := fun _ => false
    serviceHealth := fun _ => false
    detailedHealthy := fun _ => false }

/-- Health-checker state with an odd cycle counter (so the plain, not the
detailed, HTTP check runs) and no confirmed-healthy entries. -/
def hcFresh : HCState := { detailedCounter := 1, confirmed := fun _ => none }

/-- Health-checker state whose confirmed-healthy entries are all fresh
(timestamp 499, probed at time 500). -/
def hcConfirmedFresh : HCState := { detailedCounter := 1, confirmed := fun _ => some 499 }

/-- Snapshot marking the dependency healthy and every service unhealthy. -/
def snapRedisOnly : Snapshot := { redis := true, svc := fun _ => false }

/-- Start-environment in which Redis launches and stays alive but never
answers a health check, while every service has its files and launches
cleanly. -/
def startEnvRedisDeaf : StartEnv :=
  { now := 42
    redisExeExists := true
    redisLaunchOk := true
    redisDied := false
    redisExitCode := 0
    redisHealthTry := fun _ => false
    filesExist := fun _ => true
    launchOk := fun _ => true
    svcDied := fun _ => false
    svcExitCode := fun _ => 0 }

/-- Start-environment in which `redis-server.exe` is missing, so step 1 fails
before anything is launched. -/
def startEnvNoRedisExe : StartEnv := { startEnvRedisDeaf with redisExeExists := false }

/-- Loop tick on which the stop flag is still set but a probe or logging call
inside the cycle raises. -/
def tickRaising : TickEnv :=
  { running := true
    raises := true
    parent := ccAllAlive
    probes := probesPortOnly
    now := 500 }

/-- Loop tick on which the stop flag is still set and the cycle completes
normally. -/
def tickNormal : TickEnv := { tickRaising with raises := false }

/-- Stop-environment in which every graceful wait succeeds. -/
def stopEnvGraceful : StopEnv := { gracefulOk := fun _ => true }

/-! ## Helper lemmas -/

/-- Every service identifier appears in the declaration-order list. -/
theorem mem_allServices (n : SName) : n ∈ allServices := by
  cases n <;> simp [allServices]

/-- Bridge between the `all(...)` aggregate of the source and a universal
statement over the closed service set. -/
theorem allServices_all_iff (f : SName → Bool) :
    allServices.all f = true ↔ ∀ n : SName, f n = true := by
  rw [List.all_eq_true]
  exact ⟨fun h n => h n (mem_allServices n), fun h n _ => h n⟩

/-- Bridge between the `any(...)` aggregate of the source and an existential
statement over the closed service set. -/
theorem allServices_any_iff (f : SName → Bool) :
    allServices.any f = true ↔ ∃ n : SName, f n = true := by
  rw [List.any_eq_true]
  exact ⟨fun ⟨n, _, h⟩ => ⟨n, h⟩, fun ⟨n, h⟩ => ⟨n, mem_allServices n, h⟩⟩

/-- Bridge between a full count over the service set and a universal
statement. -/
theorem allServices_countP_eq_length_iff (f : SName → Bool) :
    allServices.countP f = allServices.length ↔ ∀ n : SName, f n = true := by
  rw [List.countP_eq_length]
  exact ⟨fun h n => h n (mem_allServices n), fun h n _ => h n⟩

/-- Bridge between a positive count over the service set and an existential
statement. -/
theorem allServices_countP_pos_iff (f : SName → Bool) :
    0 < allServices.countP f ↔ ∃ n : SName, f n = true := by
  rw [List.countP_pos_iff]
  exact ⟨fun ⟨n, _, h⟩ => ⟨n, h⟩, fun ⟨n, h⟩ => ⟨n, mem_allServices n, h⟩⟩

/-! ## C1 -/

/-- C1: in every health-monitor cycle, a configured service with no registered
process handle, or whose handle reports the process has exited, is mapped to
unhealthy in the published snapshot, and its confirmed-healthy entry is
removed in that same cycle, regardless of how recent the entry's timestamp
is. -/
theorem dead_process_never_healthy (p : CCState) (pr : Probes) (st : HCState)
    (now : Nat) (n : SName)
    (h : p.svcProc n = none ∨ ∃ c, p.svcProc n = some (ProcState.exited c)) :
    (runCycle p pr st now).1.svc n = false ∧
      (runCycle p pr st now).2.1.confirmed n = none := by
  have hone : checkOneService p pr st now n = (false, none) := by
    unfold checkOneService
    rcases h with h | ⟨c, h⟩ <;> rw [h] <;> cases hb : p.servicesRunning <;> simp
  exact ⟨by simp [runCycle, hone], by simp [runCycle, hone]⟩

/-- Closed instance of `dead_process_never_healthy`: the `gary` handle has
exited (code 1) yet its confirmed-healthy entry is only one second old; the
cycle still reports it unhealthy and evicts the entry. -/
theorem dead_process_never_healthy_witness :
    (runCycle ccGaryExited probesPortOnly hcConfirmedFresh 500).1.svc SName.gary = false ∧
      (runCycle ccGaryExited probesPortOnly hcConfirmedFresh 500).2.1.confirmed SName.gary = none :=
  dead_process_never_healthy ccGaryExited probesPortOnly hcConfirmedFresh 500 SName.gary
    (Or.inr ⟨1, by decide⟩)

/-! ## C10 -/

/-- C10: whenever the aggregate running flag is false, the cycle maps every
configured service to unhealthy and clears its confirmed-healthy entry, for
every possible probe outcome (so both probes are bypassed: even a live
listener on the service's port cannot make it read healthy). -/
theorem flag_false_forces_unhealthy (p : CCState) (pr : Probes) (st : HCState)
    (now : Nat) (h : p.servicesRunning = false) :
    ∀ n : SName, (runCycle p pr st now).1.svc n = false ∧
      (runCycle p pr st now).2.1.confirmed n = none := by
  intro n
  have hone : checkOneService p pr st now n = (false, none) := by
    unfold checkOneService
    rw [h]
    simp
  exact ⟨by simp [runCycle, hone], by simp [runCycle, hone]⟩

/-- Closed instance of `flag_false_forces_unhealthy`: the flag is down while
every port listens and every health probe would succeed, and all confirmed
entries are fresh; the snapshot still reports all services unhealthy and the
registry is emptied. -/
theorem flag_false_forces_unhealthy_witness :
    (runCycle { ccAllAlive with servicesRunning := false } probesAllHealthy
        hcConfirmedFresh 500).1.svc SName.melodyflow = false ∧
      (runCycle { ccAllAlive with servicesRunning := false } probesAllHealthy
        hcConfirmedFresh 500).2.1.confirmed SName.melodyflow = none :=
  flag_false_forces_unhealthy { ccAllAlive with servicesRunning := false }
    probesAllHealthy hcConfirmedFresh 500 (by decide) SName.melodyflow

/-! ## C6 -/

/-- C6: with the running flag up, a live `gary` handle, an unhealthy snapshot
entry for `gary`, and a successful liveness probe on its port, the derived
display state is `starting`, never `error`. -/
theorem gary_busy_exemption_starting (p : CCState) (last : Snapshot)
    (portL : SName → Bool)
    (h1 : p.servicesRunning = true)
    (h2 : p.svcProc SName.gary = some ProcState.alive)
    (h3 : last.svc SName.gary = false)
    (h4 : portL SName.gary = true) :
    serviceIndicatorStatus p last portL SName.gary = StatusKind.starting ∧
      serviceIndicatorStatus p last portL SName.gary ≠ StatusKind.error := by
  have : serviceIndicatorStatus p last portL SName.gary = StatusKind.starting := by
    unfold serviceIndicatorStatus
    rw [h1, h2]
    simp [h3, h4]
  exact ⟨this, by rw [this]; intro hc; cases hc⟩

/-- Closed instance of `gary_busy_exemption_starting`: all handles alive, all
health probes failing, all ports listening. -/
theorem gary_busy_exemption_starting_witness :
    serviceIndicatorStatus ccAllAlive snapRedisOnly (fun _ => true) SName.gary =
        StatusKind.starting ∧
      serviceIndicatorStatus ccAllAlive snapRedisOnly (fun _ => true) SName.gary ≠
        StatusKind.error :=
  gary_busy_exemption_starting ccAllAlive snapRedisOnly (fun _ => true)
    (by decide) (by decide) (by decide) rfl

/-! ## C8 -/

/-- C8: while a start operation is in flight (the worker thread reports
`isRunning()`), invoking the `start_services` entry point is rejected as a
no-op — the state, including the process registry, is unchanged and no
operation is dispatched; moreover the worker body itself refuses to run again
while the running flag is up, so no second process is launched for any
service. -/
theorem start_singleflight_noop (s : CCState) (env : StartEnv)
    (h : s.workerRunning = true) :
    start_services s = (s, false) ∧
      (s.servicesRunning = true → startServicesRun s env = (s, [])) := by
  constructor
  · unfold start_services
    rw [h]
    simp
  · intro h2
    unfold startServicesRun
    rw [h2]
    simp

/-- Closed instance of `start_singleflight_noop` at a state whose worker is
mid-start with the running flag already set. -/
theorem start_singleflight_noop_witness :
    start_services ccStartInFlight = (ccStartInFlight, false) ∧
      startServicesRun ccStartInFlight startEnvRedisDeaf = (ccStartInFlight, []) :=
  ⟨(start_singleflight_noop ccStartInFlight startEnvRedisDeaf rfl).1,
    (start_singleflight_noop ccStartInFlight startEnvRedisDeaf rfl).2 rfl⟩

/-! ## C9 -/

/-- C9: invoking the `stop_services` entry point while the running flag is
false is a no-op: nothing is dispatched, the worker body would issue no
terminate or kill action, and the registry, running flag and start timestamp
are left unchanged. -/
theorem stop_idempotent_noop (s : CCState) (env : StopEnv)
    (h : s.servicesRunning = false) :
    stop_services s = (s, false) ∧ stopServicesRun s env = (s, []) := by
  constructor
  · unfold stop_services
    rw [h]
    simp
  · unfold stopServicesRun
    rw [h]
    simp

/-- Closed instance of `stop_idempotent_noop` at the idle state. -/
theorem stop_idempotent_noop_witness :
    stop_services ccIdle = (ccIdle, false) ∧
      stopServicesRun ccIdle stopEnvGraceful = (ccIdle, []) :=
  stop_idempotent_noop ccIdle stopEnvGraceful rfl

/-! ## C2 -/

/-- C2 counterexample: a two-tick schedule on which the stop flag is never
cleared, but the first cycle raises an exception.  The loop performs only one
iteration — the second scheduled cycle is never executed — refuting the claim
that any caught probe or logging failure lets the loop proceed to its next
scheduled cycle. -/
theorem hcLoop_internal_failure_ends_loop_cex :
    (∀ t ∈ [tickRaising, tickNormal], t.running = true) ∧
      [tickRaising, tickNormal].length = 2 ∧
      (hcLoop hcFresh [tickRaising, tickNormal]).length = 1 := by
  refine ⟨?_, rfl, rfl⟩
  intro t ht
  rcases List.mem_cons.mp ht with h | h
  · rw [h]; rfl
  · rcases List.mem_cons.mp h with h2 | h2
    · rw [h2]; rfl
    · cases h2

/-- C2 amended: an exception raised inside a cycle is caught and logged, but
the loop then terminates (the handler executes `break`) instead of proceeding
to its next scheduled cycle; only exception-free cycles continue the loop. -/
theorem hcLoop_exception_logged_then_break (st : HCState) (t : TickEnv)
    (rest : List TickEnv) (h1 : t.running = true) (h2 : t.raises = true) :
    hcLoop st (t :: rest) = [CycleResult.errorLogged] := by
  unfold hcLoop
  rw [h1, h2]
  simp

/-- Closed instance of `hcLoop_exception_logged_then_break`: the raising tick
ends the loop even though another fully-runnable tick is scheduled after
it. -/
theorem hcLoop_exception_logged_then_break_witness :
    hcLoop hcFresh [tickRaising, tickNormal] = [CycleResult.errorLogged] :=
  hcLoop_exception_logged_then_break hcFresh tickRaising [tickNormal] rfl rfl

/-! ## C4 -/

/-- C4 counterexample: every handle is alive, every HTTP health check fails
but every port listens, and no service is confirmed healthy.  The published
snapshot maps every configured service to true, yet the next sleep interval
is the medium tier (8s), not the longest tier (15s) the claim requires. -/
theorem adaptive_interval_allhealthy_cex :
    (∀ n : SName, (runCycle ccAllAlive probesPortOnly hcFresh 500).1.svc n = true) ∧
      (runCycle ccAllAlive probesPortOnly hcFresh 500).2.2 = 8 := by
  constructor
  · decide
  · rfl

/-- C4 amended: the longest tier (15s) requires the snapshot to map every
configured service to true AND every service to hold a confirmed-healthy
entry at the end of the cycle; all services false gives the shortest tier
(3s); at least one service true without the full confirmed-healthy condition
gives the medium tier (8s). -/
theorem adaptive_interval_law (p : CCState) (pr : Probes) (st : HCState)
    (now : Nat) :
    ((∀ n : SName, (runCycle p pr st now).1.svc n = true) →
      (∀ n : SName, ((runCycle p pr st now).2.1.confirmed n).isSome = true) →
      (runCycle p pr st now).2.2 = 15) ∧
    ((∀ n : SName, (runCycle p pr st now).1.svc n = false) →
      (runCycle p pr st now).2.2 = 3) ∧
    ((∃ n : SName, (runCycle p pr st now).1.svc n = true) →
      ¬((∀ n : SName, (runCycle p pr st now).1.svc n = true) ∧
        (∀ n : SName, ((runCycle p pr st now).2.1.confirmed n).isSome = true)) →
      (runCycle p pr st now).2.2 = 8) := by
  refine ⟨?_, ?_, ?_⟩
  · intro h1 h2
    simp only [runCycle] at h1 h2 ⊢
    rw [if_pos]
    exact ⟨(allServices_all_iff _).mpr h1, (allServices_countP_eq_length_iff _).mpr h2⟩
  · intro h1
    simp only [runCycle] at h1 ⊢
    rw [if_neg, if_neg]
    · intro hc
      obtain ⟨n, hn⟩ := (allServices_any_iff _).mp hc
      rw [h1 n] at hn
      cases hn
    · intro hc
      have := (allServices_all_iff _).mp hc.1 SName.gary
      rw [h1 SName.gary] at this
      cases this
  · intro h1 h2
    simp only [runCycle] at h1 h2 ⊢
    rw [if_neg, if_pos]
    · exact (allServices_any_iff _).mpr h1
    · intro hc
      exact h2 ⟨(allServices_all_iff _).mp hc.1, (allServices_countP_eq_length_iff _).mp hc.2⟩

/-- Closed instances of the three tiers of `adaptive_interval_law`: all
checks succeed (15s), all fail (3s), ports listen but health checks fail
(8s). -/
theorem adaptive_interval_law_witness :
    (runCycle ccAllAlive probesAllHealthy hcFresh 500).2.2 = 15 ∧
      (runCycle ccAllAlive probesNone hcFresh 500).2.2 = 3 ∧
      (runCycle ccAllAlive probesPortOnly hcFresh 500).2.2 = 8 :=
  ⟨(adaptive_interval_law ccAllAlive probesAllHealthy hcFresh 500).1
      (by decide) (by decide),
    (adaptive_interval_law ccAllAlive probesNone hcFresh 500).2.1 (by decide),
    (adaptive_interval_law ccAllAlive probesPortOnly hcFresh 500).2.2
      (by decide) (by decide)⟩

/-! ## Start-sequence helper lemmas -/

/-- Launching one service never touches the aggregate running flag. -/
theorem startOneService_servicesRunning (env : StartEnv)
    (acc : CCState × List LogEvent) (s : SName) :
    (startOneService env acc s).1.servicesRunning = acc.1.servicesRunning := by
  unfold startOneService
  cases hf : env.filesExist s <;> cases hl : env.launchOk s <;>
    cases hd : env.svcDied s <;>
    by_cases hc : env.svcExitCode s = (3221225477 : Int) <;>
    simp [hf, hl, hd, hc]

/-- Launching one service never touches the start timestamp. -/
theorem startOneService_startTime (env : StartEnv)
    (acc : CCState × List LogEvent) (s : SName) :
    (startOneService env acc s).1.startTime = acc.1.startTime := by
  unfold startOneService
  cases hf : env.filesExist s <;> cases hl : env.launchOk s <;>
    cases hd : env.svcDied s <;>
    by_cases hc : env.svcExitCode s = (3221225477 : Int) <;>
    simp [hf, hl, hd, hc]

/-- Launching one service leaves every other service's registry entry
alone. -/
theorem startOneService_svcProc_ne (env : StartEnv)
    (acc : CCState × List LogEvent) (s n : SName) (hne : n ≠ s) :
    (startOneService env acc s).1.svcProc n = acc.1.svcProc n := by
  unfold startOneService
  cases hf : env.filesExist s <;> cases hl : env.launchOk s <;>
    cases hd : env.svcDied s <;>
    by_cases hc : env.svcExitCode s = (3221225477 : Int) <;>
    simp [hf, hl, hd, hc, hne]

/-- A service whose files exist and whose launch call succeeds ends up with a
registered handle (even if the process dies within the settle delay). -/
theorem startOneService_registers (env : StartEnv)
    (acc : CCState × List LogEvent) (s : SName)
    (hf : env.filesExist s = true) (hl : env.launchOk s = true) :
    ((startOneService env acc s).1.svcProc s).isSome = true := by
  unfold startOneService
  cases hd : env.svcDied s <;>
    by_cases hc : env.svcExitCode s = (3221225477 : Int) <;>
    simp [hf, hl, hd, hc]

/-- Launching one service only appends to the log trace. -/
theorem startOneService_logs_mono (env : StartEnv)
    (acc : CCState × List LogEvent) (s : SName) (e : LogEvent) (h : e ∈ acc.2) :
    e ∈ (startOneService env acc s).2 := by
  unfold startOneService
  cases hf : env.filesExist s <;> cases hl : env.launchOk s <;>
    cases hd : env.svcDied s <;>
    by_cases hc : env.svcExitCode s = (3221225477 : Int) <;>
    simp [hf, hl, hd, hc, h]

/-- The whole service-launch loop never touches the aggregate running
flag. -/
theorem startFold_servicesRunning (env : StartEnv) (acc : CCState × List LogEvent) :
    ((allServices.foldl (startOneService env) acc).1.servicesRunning) =
      acc.1.servicesRunning := by
  have e : allServices.foldl (startOneService env) acc =
      startOneService env (startOneService env
        (startOneService env acc SName.gary) SName.melodyflow) SName.stableAudio := rfl
  rw [e, startOneService_servicesRunning, startOneService_servicesRunning,
    startOneService_servicesRunning]

/-- The whole service-launch loop never touches the start timestamp. -/
theorem startFold_startTime (env : StartEnv) (acc : CCState × List LogEvent) :
    ((allServices.foldl (startOneService env) acc).1.startTime) = acc.1.startTime := by
  have e : allServices.foldl (startOneService env) acc =
      startOneService env (startOneService env
        (startOneService env acc SName.gary) SName.melodyflow) SName.stableAudio := rfl
  rw [e, startOneService_startTime, startOneService_startTime, startOneService_startTime]

/-- The whole service-launch loop only appends to the log trace. -/
theorem startFold_logs_mono (env : StartEnv) (acc : CCState × List LogEvent)
    (e : LogEvent) (h : e ∈ acc.2) :
    e ∈ (allServices.foldl (startOneService env) acc).2 := by
  have he : allServices.foldl (startOneService env) acc =
      startOneService env (startOneService env
        (startOneService env acc SName.gary) SName.melodyflow) SName.stableAudio := rfl
  rw [he]
  exact startOneService_logs_mono _ _ _ _
    (startOneService_logs_mono _ _ _ _ (startOneService_logs_mono _ _ _ _ h))

/-- Every service whose files exist and whose launch succeeds is registered
after the whole service-launch loop. -/
theorem startFold_registers (env : StartEnv) (acc : CCState × List LogEvent)
    (s : SName) (hf : env.filesExist s = true) (hl : env.launchOk s = true) :
    (((allServices.foldl (startOneService env) acc).1.svcProc s)).isSome = true := by
  have e : allServices.foldl (startOneService env) acc =
      startOneService env (startOneService env
        (startOneService env acc SName.gary) SName.melodyflow) SName.stableAudio := rfl
  rw [e]
  cases s
  · rw [startOneService_svcProc_ne _ _ _ _ (by decide),
      startOneService_svcProc_ne _ _ _ _ (by decide)]
    exact startOneService_registers _ _ _ hf hl
  · rw [startOneService_svcProc_ne _ _ _ _ (by decide)]
    exact startOneService_registers _ _ _ hf hl
  · exact startOneService_registers _ _ _ hf hl

/-- With every retry failing, the bounded Redis retry loop logs four waiting
messages and then the not-responding warning — and nothing else. -/
theorem redisRetryLogs_all_fail (h : Nat → Bool)
    (hf : ∀ i ∈ List.range 5, h i = false) :
    redisRetryLogs h (List.range 5) =
      [LogEvent.redisWaiting 1, LogEvent.redisWaiting 2, LogEvent.redisWaiting 3,
        LogEvent.redisWaiting 4, LogEvent.redisNotResponding] := by
  have e : List.range 5 = [0, 1, 2, 3, 4] := by decide
  rw [e] at hf ⊢
  have h0 := hf 0 (by decide)
  have h1 := hf 1 (by decide)
  have h2 := hf 2 (by decide)
  have h3 := hf 3 (by decide)
  have h4 := hf 4 (by decide)
  simp [redisRetryLogs, h0, h1, h2, h3, h4]

/-! ## C7 -/

/-- C7 counterexample: `redis-server.exe` is missing, so step 1 (dependency
launch and liveness confirmation) fails immediately — yet the aggregate
running flag is already true and the start timestamp recorded, refuting the
claim that the flag remains false while step 1 has not succeeded. -/
theorem start_flag_before_step1_cex :
    (startServicesRun ccIdle startEnvNoRedisExe).1.servicesRunning = true ∧
      (startServicesRun ccIdle startEnvNoRedisExe).1.startTime = some 42 ∧
      LogEvent.redisNotFound ∈ (startServicesRun ccIdle startEnvNoRedisExe).2 := by
  refine ⟨rfl, rfl, ?_⟩
  decide

/-- C7 amended: the aggregate running flag is set true and the start
timestamp recorded unconditionally at the top of the start operation (right
after the idempotence check), before the dependency is even launched and
regardless of whether any step succeeds. -/
theorem start_sets_flag_at_entry (p : CCState) (env : StartEnv)
    (h : p.servicesRunning = false) :
    (startServicesRun p env).1.servicesRunning = true ∧
      (startServicesRun p env).1.startTime = some env.now := by
  unfold startServicesRun
  rw [h]
  cases h1 : env.redisExeExists <;> cases h2 : env.redisLaunchOk <;>
    cases h3 : env.redisDied <;>
    simp [h1, h2, h3, startFold_servicesRunning, startFold_startTime]

/-- Closed instance of `start_sets_flag_at_entry` in the environment where
the dependency executable is missing. -/
theorem start_sets_flag_at_entry_witness :
    (startServicesRun ccIdle startEnvNoRedisExe).1.servicesRunning = true ∧
      (startServicesRun ccIdle startEnvNoRedisExe).1.startTime =
        some startEnvNoRedisExe.now :=
  start_sets_flag_at_entry ccIdle startEnvNoRedisExe rfl

/-! ## C3 -/

/-- C3 counterexample: Redis launches and stays alive but fails all five
health-check retries (it never becomes reachable), every service's files
exist and every launch succeeds.  The claim demands that no service be
launched and the registry end with zero service handles; instead the start
sequence proceeds and the registry ends with a live handle for every
configured service. -/
theorem redis_unreachable_still_starts_services_cex :
    (∀ i ∈ List.range 5, startEnvRedisDeaf.redisHealthTry i = false) ∧
      (startServicesRun ccIdle startEnvRedisDeaf).1.svcProc SName.gary =
        some ProcState.alive ∧
      (startServicesRun ccIdle startEnvRedisDeaf).1.svcProc SName.melodyflow =
        some ProcState.alive ∧
      (startServicesRun ccIdle startEnvRedisDeaf).1.svcProc SName.stableAudio =
        some ProcState.alive := by
  refine ⟨?_, rfl, rfl, rfl⟩
  decide

/-- C3 amended: when the dependency launches and stays alive but never
becomes reachable within the bounded retry loop, the failure is logged (the
not-responding warning) but the start sequence is NOT aborted: it proceeds to
the service-launch loop, and every configured service whose files exist and
whose launch call succeeds ends up with a registered handle. -/
theorem redis_unreachable_logged_and_continue (p : CCState) (env : StartEnv)
    (h0 : p.servicesRunning = false)
    (h1 : env.redisExeExists = true) (h2 : env.redisLaunchOk = true)
    (h3 : env.redisDied = false)
    (h4 : ∀ i ∈ List.range 5, env.redisHealthTry i = false) :
    LogEvent.redisNotResponding ∈ (startServicesRun p env).2 ∧
      ∀ s : SName, env.filesExist s = true → env.launchOk s = true →
        ((startServicesRun p env).1.svcProc s).isSome = true := by
  unfold startServicesRun
  rw [h0]
  simp only [h1, h2, h3, Bool.true_eq_false, ite_false, ite_true]
  constructor
  · apply List.mem_append.mpr
    left
    apply startFold_logs_mono
    rw [redisRetryLogs_all_fail env.redisHealthTry h4]
    simp
  · intro s hf hl
    exact startFold_registers env _ s hf hl

/-- Closed instance of `redis_unreachable_logged_and_continue` in the
deaf-Redis environment: the warning is logged and `gary` is registered. -/
theorem redis_unreachable_logged_and_continue_witness :
    LogEvent.redisNotResponding ∈ (startServicesRun ccIdle startEnvRedisDeaf).2 ∧
      ((startServicesRun ccIdle startEnvRedisDeaf).1.svcProc SName.gary).isSome = true :=
  ⟨(redis_unreachable_logged_and_continue ccIdle startEnvRedisDeaf rfl rfl rfl rfl
      (by decide)).1,
    (redis_unreachable_logged_and_continue ccIdle startEnvRedisDeaf rfl rfl rfl rfl
      (by decide)).2 SName.gary rfl rfl⟩

/-! ## C5 -/

/-- C5 counterexample: the running flag is up, no service handle is
registered at all (so nothing counts as a dead tracked process), every
service port is listening, every snapshot entry is false and the dependency
is healthy.  The derivation as the claim words it yields `running` (every
service is healthy-or-port-listening and the dependency is healthy), but
`get_system_status` yields `starting`, because its per-service count also
requires a registered, live process handle. -/
theorem system_status_spec_mismatch_cex :
    get_system_status ccNoHandles snapRedisOnly (fun _ => true) false =
        StatusKind.starting ∧
      spec_system_status ccNoHandles snapRedisOnly (fun _ => true) false =
        StatusKind.runningOk := by
  constructor <;> decide

/-- C5 amended: `get_system_status` derives `stopped` when the running flag
is false; else `error` when some tracked non-dependency process has exited;
else `running` when every configured service has a registered live handle and
is healthy-or-port-listening and the dependency is healthy; else `starting`
when at least one service has a registered live handle and is
healthy-or-port-listening, or the dependency is healthy; otherwise `error` —
i.e. it coincides with `spec_system_status_amended` on every input. -/
theorem system_status_matches_amended_spec (p : CCState) (last : Snapshot)
    (portL : SName → Bool) (redisPortL : Bool) :
    get_system_status p last portL redisPortL =
      spec_system_status_amended p last portL redisPortL := by
  unfold get_system_status spec_system_status_amended
  have e1 : (0 < allServices.countP (svcDead p)) = (∃ n : SName, svcDead p n = true) :=
    propext (allServices_countP_pos_iff _)
  have e2 : (allServices.countP (svcHealthyOrListening p last portL) =
      allServices.length) =
      (∀ n : SName, svcHealthyOrListening p last portL n = true) :=
    propext (allServices_countP_eq_length_iff _)
  have e3 : (0 < allServices.countP (svcHealthyOrListening p last portL)) =
      (∃ n : SName, svcHealthyOrListening p last portL n = true) :=
    propext (allServices_countP_pos_iff _)
  simp only [e1, e2, e3]
